import Mathlib

/-!
Shallow embedding of the API telemetry, rate-limiting and response-cache
store of `src/src/storage/api_storage.py` (class `APIStorageManager`).

Modelling conventions, uniform across the file:

* Timestamps are integers (seconds).  The code stores ISO-8601 strings and
  compares them with `<` / `>=` in SQL; for the fixed format the code emits,
  lexicographic string order agrees with chronological order, so every such
  comparison becomes an integer comparison.
* Each SQLite table becomes a Lean list of records in rowid (insertion)
  order; `INSERT` appends at the end.  `INSERT OR REPLACE` into
  `api_rate_limits` is a plain append because that table's only uniqueness
  constraint is the autoincrement primary key, which is never supplied.
  `INSERT OR REPLACE` into `api_analytics` replaces the row with the same
  `(date, hour)` key, which that table declares `UNIQUE`.
* A scalar SQL subquery with no `ORDER BY` is modelled as returning the
  first matching row in rowid order (SQLite scans the
  `(ip_address, endpoint)` index, whose equal keys are ordered by rowid).
* `datetime.fromisoformat` / `strftime` bucketing by (date, hour) is the
  floor of the timestamp to the hour, modelled for nonnegative times.
* Every operation is wrapped in the source's `try/except`: an explicit
  `fail` flag selects the `except` branch (the storage backend raising),
  which logs and returns the fallback value the code returns there.
* `uuid.uuid4()` and `datetime.now()` are free inputs: the generated id and
  the current time are passed to each operation as arguments.
* JSON archive files are records in per-kind lists; a file's modification
  time is the timestamp it was written with.  The cache file name is the
  md5 of the caller's key, a fixed deterministic function of the key, so
  the cache is keyed by the key string itself.
-/

/-- Fields of the `request_data` dict that `log_api_request` and
`create_or_update_session` read, after the `.get(...)` defaults are applied;
`encodedSize` models `len(str(request_data).encode('utf-8'))` and `headers`
models `json.dumps(request_data.get('headers', {}))`. -/
structure RequestData where
  session_id : Option String
  endpoint : String
  method : String
  user_query : String
  ip_address : String
  user_agent : String
  headers : String
  encodedSize : Nat
  deriving DecidableEq

/-- Fields of the `response_data` dict that `log_api_response` reads:
`success`, `session_id`, `sql_generated`, `result_count`,
`metadata.agent_type`, `metadata.error` and the encoded byte size. -/
structure ResponseData where
  session_id : Option String
  success : Bool
  sql_generated : Option String
  result_count : Nat
  agent_type : String
  error : String
  encodedSize : Nat
  deriving DecidableEq

/-- One row of the `api_requests` table. -/
structure RequestRecord where
  request_id : String
  session_id : Option String
  timestamp : Int
  endpoint : String
  method : String
  user_query : String
  request_size : Nat
  ip_address : String
  user_agent : String
  headers : String
  deriving DecidableEq

/-- One row of the `api_responses` table. -/
structure ResponseRecord where
  response_id : String
  request_id : String
  session_id : Option String
  timestamp : Int
  status_code : Nat
  success : Bool
  response_size : Nat
  processing_time : Rat
  sql_generated : Option String
  result_count : Nat
  agent_type : String
  error_message : Option String
  deriving DecidableEq

/-- One row of the `api_sessions` table.  The schema defaults
(`total_requests = 0`, counters `0`, `is_active = TRUE`) are what the
`INSERT` in `create_or_update_session` leaves for unlisted columns. -/
structure SessionRecord where
  session_id : String
  created_at : Int
  last_activity : Int
  total_requests : Nat
  successful_requests : Nat
  failed_requests : Nat
  total_response_time : Rat
  ip_address : String
  user_agent : String
  is_active : Bool
  ended_at : Option Int
  deriving DecidableEq

/-- One row of the `api_rate_limits` table. -/
structure RateLimitRow where
  ip_address : String
  endpoint : String
  request_count : Nat
  window_start : Int
  window_end : Int
  is_blocked : Bool
  deriving DecidableEq

/-- The aggregate columns of one `api_analytics` row; the `(date, hour)`
key is kept beside the bucket in the store. -/
structure AnalyticsBucket where
  total_requests : Nat
  successful_requests : Nat
  failed_requests : Nat
  unique_sessions : Nat
  avg_response_time : Rat
  total_data_transferred : Nat
  deriving DecidableEq

/-- The info dict `check_rate_limit` returns beside the admitted flag. -/
structure RateLimitInfo where
  current_requests : Nat
  limit : Nat
  reset_time : Int
  blocked : Bool
  deriving DecidableEq

/-- The JSON snapshot `log_api_request` writes under `requests/`. -/
structure RequestFileRecord where
  request_id : String
  timestamp : Int
  request_data : RequestData
  deriving DecidableEq

/-- The JSON snapshot `log_api_response` writes under `responses/`. -/
structure ResponseFileRecord where
  response_id : String
  request_id : String
  timestamp : Int
  processing_time : Rat
  response_data : ResponseData
  deriving DecidableEq

/-- The JSON snapshot kept under `sessions/`: created without the
`ended_at` / `is_active` keys (modelled `none` / `true`), which
`end_session` then sets. -/
structure SessionFileRecord where
  session_id : String
  created_at : Int
  ended_at : Option Int
  is_active : Bool
  ip_address : String
  user_agent : String
  deriving DecidableEq

/-- One cache file under `cache/`: the record `cache_response` writes.
`created_at` doubles as the file's modification time for the sweeper. -/
structure CacheRecord (α : Type) where
  cache_key : String
  response_data : α
  created_at : Int
  expires_at : Int
  ttl_minutes : Nat
  deriving DecidableEq

/-- The counters `cleanup_old_data` returns. -/
structure CleanupStats where
  deleted_records : Nat
  deleted_files : Nat
  errors : Nat
  deriving DecidableEq

/-- The whole persistent state of one `APIStorageManager`: the five SQLite
tables and the four archive/cache directories.  `α` is the type of cached
response payloads. -/
structure APIStorage (α : Type) where
  requests : List RequestRecord
  responses : List ResponseRecord
  sessions : List SessionRecord
  rate_limits : List RateLimitRow
  analytics : List (Int × AnalyticsBucket)
  requestFiles : List RequestFileRecord
  responseFiles : List ResponseFileRecord
  sessionFiles : List SessionFileRecord
  cache : List (CacheRecord α)

/-- The state right after `_init_database`: every table and directory empty. -/
def APIStorage.empty {α : Type} : APIStorage α :=
  { requests := [], responses := [], sessions := [], rate_limits := []
    analytics := [], requestFiles := [], responseFiles := []
    sessionFiles := [], cache := [] }

/-- `log_api_request` (lines 165-216): generate an id, insert the row,
mirror it to a JSON file, return the id; on any storage failure log and
return the id anyway (the `except` branch, line 214-216). -/
def log_api_request {α : Type} (fail : Bool) (rid : String) (t : Int)
    (rd : RequestData) (st : APIStorage α) : APIStorage α × String :=
  if fail then (st, rid)
  else
    ({ st with
        requests := st.requests ++
          [{ request_id := rid, session_id := rd.session_id, timestamp := t
             endpoint := rd.endpoint, method := rd.method
             user_query := rd.user_query, request_size := rd.encodedSize
             ip_address := rd.ip_address, user_agent := rd.user_agent
             headers := rd.headers }]
        requestFiles := st.requestFiles ++
          [{ request_id := rid, timestamp := t, request_data := rd }] },
      rid)

/-- The `api_responses` row `log_api_response` inserts: `status_code` is
`200 if response_data.get('success', False) else 500` (line 240) and
`error_message` is stored only when `success` is false (line 247). -/
def mkResponseRecord (response_id request_id : String) (t : Int)
    (rd : ResponseData) (pt : Rat) : ResponseRecord :=
  { response_id := response_id
    request_id := request_id
    session_id := rd.session_id
    timestamp := t
    status_code := if rd.success then 200 else 500
    success := rd.success
    response_size := rd.encodedSize
    processing_time := pt
    sql_generated := rd.sql_generated
    result_count := rd.result_count
    agent_type := rd.agent_type
    error_message := if rd.success then none else some rd.error }

/-- `log_api_response` (lines 218-275): insert the row for the given
`request_id` (no check that any request holds that id), mirror it to a JSON
file, return the generated response id; on failure log and return the id
anyway (lines 273-275). -/
def log_api_response {α : Type} (fail : Bool) (rid qid : String) (t : Int)
    (rd : ResponseData) (pt : Rat) (st : APIStorage α) : APIStorage α × String :=
  if fail then (st, rid)
  else
    ({ st with
        responses := st.responses ++ [mkResponseRecord rid qid t rd pt]
        responseFiles := st.responseFiles ++
          [{ response_id := rid, request_id := qid, timestamp := t
             processing_time := pt, response_data := rd }] },
      rid)

/-- `create_or_update_session` (lines 277-332): if a row with the session
id exists, update its `last_activity` and add one to `total_requests`;
otherwise insert a fresh row (counters at their schema defaults, so
`total_requests = 0`) and write the session file.  Returns `True`, or
`False` from the `except` branch. -/
def create_or_update_session {α : Type} (fail : Bool) (sid : String) (t : Int)
    (rd : RequestData) (st : APIStorage α) : APIStorage α × Bool :=
  if fail then (st, false)
  else if st.sessions.any (fun s => s.session_id == sid) then
    ({ st with
        sessions := st.sessions.map (fun s =>
          if s.session_id == sid then
            { s with last_activity := t, total_requests := s.total_requests + 1 }
          else s) },
      true)
  else
    ({ st with
        sessions := st.sessions ++
          [{ session_id := sid, created_at := t, last_activity := t
             total_requests := 0, successful_requests := 0
             failed_requests := 0, total_response_time := 0
             ip_address := rd.ip_address, user_agent := rd.user_agent
             is_active := true, ended_at := none }]
        sessionFiles := st.sessionFiles ++
          [{ session_id := sid, created_at := t, ended_at := none
             is_active := true, ip_address := rd.ip_address
             user_agent := rd.user_agent }] },
      true)

/-- `update_session_result` (lines 334-359): add the outcome to the
session's success/failure counter and cumulative response time. -/
def update_session_result {α : Type} (fail : Bool) (sid : String)
    (success : Bool) (pt : Rat) (st : APIStorage α) : APIStorage α :=
  if fail then st
  else
    { st with
        sessions := st.sessions.map (fun s =>
          if s.session_id == sid then
            if success then
              { s with successful_requests := s.successful_requests + 1
                       total_response_time := s.total_response_time + pt }
            else
              { s with failed_requests := s.failed_requests + 1
                       total_response_time := s.total_response_time + pt }
          else s) }

/-- The row update of `end_session`: `SET is_active = FALSE, ended_at = ?
WHERE session_id = ? AND is_active = TRUE` (lines 368-372). -/
def endSessionRow (sid : String) (t : Int) (s : SessionRecord) : SessionRecord :=
  if s.session_id == sid && s.is_active then
    { s with is_active := false, ended_at := some t }
  else s

/-- `end_session` (lines 361-394): run the guarded update on the table,
then rewrite the session file (its `ended_at` / `is_active` are set
whenever the file exists, with no active-flag guard).  Returns `True`, or
`False` from the `except` branch. -/
def end_session {α : Type} (fail : Bool) (sid : String) (t : Int)
    (st : APIStorage α) : APIStorage α × Bool :=
  if fail then (st, false)
  else
    ({ st with
        sessions := st.sessions.map (endSessionRow sid t)
        sessionFiles := st.sessionFiles.map (fun f =>
          if f.session_id == sid then
            { f with ended_at := some t, is_active := false }
          else f) },
      true)

/-- The (date, hour) bucket key of a timestamp: the code formats
`%Y-%m-%d` plus the hour, i.e. it floors the instant to its hour;
modelled for nonnegative times. -/
def hourKey (t : Int) : Int := t / 3600

/-- The fresh analytics table `update_analytics` leaves: the bucket for the
hour of `t`, recomputed from `api_responses` (counts, success/failure
split, `AVG(processing_time)` with `or 0.0` for the empty hour,
`SUM(response_size)`) and from `COUNT(DISTINCT session_id)` over
`api_requests`, written with `INSERT OR REPLACE` keyed `UNIQUE(date, hour)`. -/
def analyticsRollup {α : Type} (t : Int) (st : APIStorage α) :
    List (Int × AnalyticsBucket) :=
  let k := hourKey t
  let resps := st.responses.filter (fun r => hourKey r.timestamp == k)
  let bucket : AnalyticsBucket :=
    { total_requests := resps.length
      successful_requests := (resps.filter (fun r => r.success)).length
      failed_requests := (resps.filter (fun r => !r.success)).length
      unique_sessions :=
        (((st.requests.filter (fun r => hourKey r.timestamp == k)).filterMap
          (fun r => r.session_id)).dedup).length
      avg_response_time :=
        if resps.length == 0 then 0
        else (resps.map (fun r => r.processing_time)).sum / (resps.length : Rat)
      total_data_transferred := (resps.map (fun r => r.response_size)).sum }
  st.analytics.filter (fun p => p.1 != k) ++ [(k, bucket)]

/-- `update_analytics` (lines 396-452): recompute and upsert the hour's
bucket; the `except` branch leaves the store unchanged. -/
def update_analytics {α : Type} (fail : Bool) (t : Int) (st : APIStorage α) :
    APIStorage α :=
  if fail then st
  else { st with analytics := analyticsRollup t st }

/-- The retention test of the `DELETE FROM api_rate_limits` step: a row
survives unless its `window_end` predates `now` minus 60 seconds. -/
def rateKeep (now : Int) (r : RateLimitRow) : Bool :=
  !decide (r.window_end < now - 60)

/-- The `WHERE ip_address = ? AND endpoint = ? AND window_start >= ?`
test of the sum and subquery, with the window-start bound `now - 60`. -/
def rateMatching (now : Int) (ip ep : String) (r : RateLimitRow) : Bool :=
  r.ip_address == ip && r.endpoint == ep && decide (now - 60 ≤ r.window_start)

/-- `check_rate_limit` (lines 454-517).  Steps, in the code's order:
delete rows whose `window_end` predates `now - 60s`; sum `request_count`
over rows of the (ip, endpoint) pair whose `window_start` is within the
last 60s; admit iff that sum is below the limit.  An admitted call appends
a row (`INSERT OR REPLACE` never conflicts here) whose count is the first
matching row's count plus one; a rejected call sets `is_blocked` on every
row of the pair.  The `except` branch (line 517) returns
`True, {}` — "Allow request on error". -/
def check_rate_limit {α : Type} (fail : Bool) (now : Int) (ip ep : String)
    (limit : Nat) (st : APIStorage α) :
    APIStorage α × Bool × Option RateLimitInfo :=
  if fail then (st, true, none)
  else
    let rows := st.rate_limits.filter (rateKeep now)
    let current :=
      ((rows.filter (rateMatching now ip ep)).map (fun r => r.request_count)).sum
    if current < limit then
      let sub := match rows.find? (rateMatching now ip ep) with
        | some r => r.request_count
        | none => 0
      ({ st with
          rate_limits := rows ++
            [{ ip_address := ip, endpoint := ep, request_count := sub + 1
               window_start := now, window_end := now + 60
               is_blocked := false }] },
        true,
        some { current_requests := current + 1, limit := limit
               reset_time := now + 60, blocked := false })
    else
      ({ st with
          rate_limits := rows.map (fun r =>
            if r.ip_address == ip && r.endpoint == ep then
              { r with is_blocked := true }
            else r) },
        false,
        some { current_requests := current, limit := limit
               reset_time := now + 60, blocked := true })

/-- `cache_response` (lines 519-542): overwrite the file for the key's
hash with a record expiring `ttl_minutes` after now; `True` on success,
`False` from the `except` branch. -/
def cache_response {α : Type} (fail : Bool) (key : String) (payload : α)
    (ttl : Nat) (now : Int) (st : APIStorage α) : APIStorage α × Bool :=
  if fail then (st, false)
  else
    ({ st with
        cache := st.cache.filter (fun c => c.cache_key != key) ++
          [{ cache_key := key, response_data := payload, created_at := now
             expires_at := now + (ttl : Int) * 60, ttl_minutes := ttl }] },
      true)

/-- `get_cached_response` (lines 544-567): a missing file is `None`; an
entry with `now > expires_at` is unlinked and `None`; otherwise the cached
payload is returned and the store untouched. -/
def get_cached_response {α : Type} (fail : Bool) (key : String) (now : Int)
    (st : APIStorage α) : APIStorage α × Option α :=
  if fail then (st, none)
  else
    match st.cache.find? (fun c => c.cache_key == key) with
    | none => (st, none)
    | some c =>
      if decide (c.expires_at < now) then
        ({ st with cache := st.cache.filter (fun e => e.cache_key != key) }, none)
      else (st, some c.response_data)

/-- `cleanup_old_data` (lines 671-716), cutoff = now minus `days_to_keep`
days: delete responses and requests with `timestamp < cutoff`, sessions
with `created_at < cutoff AND is_active = FALSE`, rate-limit rows with
`window_end < cutoff`, and archive/cache files (requests, responses,
cache directories; not sessions) whose modification time predates the
cutoff.  The `except` branch returns no stats. -/
def cleanup_old_data {α : Type} (fail : Bool) (daysToKeep : Nat) (now : Int)
    (st : APIStorage α) : APIStorage α × Option CleanupStats :=
  if fail then (st, none)
  else
    let cutoff := now - (daysToKeep : Int) * 86400
    let responses := st.responses.filter (fun r => !decide (r.timestamp < cutoff))
    let requests := st.requests.filter (fun r => !decide (r.timestamp < cutoff))
    let sessions := st.sessions.filter (fun s =>
      !(decide (s.created_at < cutoff) && !s.is_active))
    let rate_limits := st.rate_limits.filter (fun w =>
      !decide (w.window_end < cutoff))
    let requestFiles := st.requestFiles.filter (fun f =>
      !decide (f.timestamp < cutoff))
    let responseFiles := st.responseFiles.filter (fun f =>
      !decide (f.timestamp < cutoff))
    let cache := st.cache.filter (fun c => !decide (c.created_at < cutoff))
    ({ st with
        responses := responses, requests := requests, sessions := sessions
        rate_limits := rate_limits, requestFiles := requestFiles
        responseFiles := responseFiles, cache := cache },
      some
        { deleted_records :=
            (st.responses.length - responses.length) +
            (st.requests.length - requests.length) +
            (st.sessions.length - sessions.length) +
            (st.rate_limits.length - rate_limits.length)
          deleted_files :=
            (st.requestFiles.length - requestFiles.length) +
            (st.responseFiles.length - responseFiles.length) +
            (st.cache.length - cache.length)
          errors := 0 })

/-- Executable form of the referential invariant of the schema's
`FOREIGN KEY (request_id) REFERENCES api_requests (request_id)`
(line 93): every response row's request id is held by some request row. -/
def respRefHolds {α : Type} (st : APIStorage α) : Bool :=
  st.responses.all (fun r =>
    st.requests.any (fun q => q.request_id == r.request_id))

/-- The store after `k` successive `check_rate_limit` calls for one
(ip, endpoint) pair, all with the same limit and at the same instant. -/
def rateIter {α : Type} (now : Int) (ip ep : String) (limit : Nat)
    (st : APIStorage α) : Nat → APIStorage α
  | 0 => st
  | k + 1 => (check_rate_limit false now ip ep limit
      (rateIter now ip ep limit st k)).1

/-- Whether the `(k+1)`-th of those calls (index `k` from 0) is admitted. -/
def rateAdmitted {α : Type} (now : Int) (ip ep : String) (limit : Nat)
    (st : APIStorage α) (k : Nat) : Bool :=
  (check_rate_limit false now ip ep limit (rateIter now ip ep limit st k)).2.1

/-- The info dict that `(k+1)`-th call returns. -/
def rateInfoAt {α : Type} (now : Int) (ip ep : String) (limit : Nat)
    (st : APIStorage α) (k : Nat) : Option RateLimitInfo :=
  (check_rate_limit false now ip ep limit (rateIter now ip ep limit st k)).2.2

/-- The rate-limit row an admitted call appends at time `now` with count `c`. -/
def canonRow (now : Int) (ip ep : String) (c : Nat) : RateLimitRow :=
  { ip_address := ip, endpoint := ep, request_count := c
    window_start := now, window_end := now + 60, is_blocked := false }

/-- The rate-limit table after `k` admitted same-instant calls starting
from an empty table: counts 1, 2, 2, ... (each insert stores the first
row's count plus one). -/
def canonRows (now : Int) (ip ep : String) : Nat → List RateLimitRow
  | 0 => []
  | k + 1 => canonRow now ip ep 1 :: List.replicate k (canonRow now ip ep 2)

/-- The store after `n` successive `create_or_update_session` calls with
one session id at one instant. -/
def upsertIter {α : Type} (sid : String) (t : Int) (rd : RequestData)
    (st : APIStorage α) : Nat → APIStorage α
  | 0 => st
  | n + 1 => (create_or_update_session false sid t rd
      (upsertIter sid t rd st n)).1

/-- A sample request-data value used by concrete witnesses. -/
def rdEx : RequestData :=
  { session_id := none, endpoint := "/chat", method := "POST"
    user_query := "q", ip_address := "1.2.3.4", user_agent := "ua"
    headers := "", encodedSize := 64 }

/-- A sample successful response-data value used by concrete witnesses. -/
def respDataT : ResponseData :=
  { session_id := some "s1", success := true, sql_generated := some "SELECT 1"
    result_count := 1, agent_type := "db", error := "", encodedSize := 128 }

/-- A sample failed response-data value used by concrete witnesses. -/
def respDataF : ResponseData :=
  { session_id := some "s1", success := false, sql_generated := none
    result_count := 0, agent_type := "db", error := "boom", encodedSize := 99 }

/-- Claim C4: log_api_request and log_api_response never raise to the
caller: whether or not the storage write fails, each returns the generated
id, and on failure the store is left untouched. -/
theorem log_operations_fail_open :
    ∀ (α : Type) (fail : Bool) (rid qid : String) (t : Int) (rd : RequestData)
      (rd2 : ResponseData) (pt : Rat) (st : APIStorage α),
      (log_api_request fail rid t rd st).2 = rid ∧
      (log_api_response fail rid qid t rd2 pt st).2 = rid ∧
      (log_api_request true rid t rd st).1 = st ∧
      (log_api_response true rid qid t rd2 pt st).1 = st := by
  intro α fail rid qid t rd rd2 pt st
  refine ⟨?_, ?_, rfl, rfl⟩ <;> cases fail <;> rfl

/-- Claim C5 counterexample: on an internal error the code returns
admitted=true with empty info ("Allow request on error"), not
admitted=false. -/
theorem check_rate_limit_error_admits :
    check_rate_limit (α := Unit) true 0 "1.2.3.4" "/chat" 3 APIStorage.empty =
      (APIStorage.empty, true, none) := rfl

/-- Claim C5 (amended): when check_rate_limit hits an internal error it
fails open, returning admitted=true and an empty info dict, with the store
unchanged. -/
theorem check_rate_limit_error_fail_open :
    ∀ (α : Type) (now : Int) (ip ep : String) (limit : Nat) (st : APIStorage α),
      check_rate_limit true now ip ep limit st = (st, true, none) := by
  intro α now ip ep limit st
  rfl

/-- Claim C2: log_api_response inserts a response row for any request id
without checking that a request holds it (the schema's FOREIGN KEY is
never enforced because the sqlite3 connections leave foreign_keys off), so
logging a response against the id "ghost-request" on an empty store breaks
the referential invariant. -/
theorem log_api_response_dangling_reference :
    respRefHolds (log_api_response false "resp-1" "ghost-request" 0 respDataT 1
        (APIStorage.empty (α := Unit))).1 = false ∧
    ((log_api_response false "resp-1" "ghost-request" 0 respDataT 1
        (APIStorage.empty (α := Unit))).1.responses.map
      (fun r => r.request_id)) = ["ghost-request"] ∧
    (log_api_response false "resp-1" "ghost-request" 0 respDataT 1
        (APIStorage.empty (α := Unit))).1.requests = [] := by
  refine ⟨rfl, rfl, rfl⟩

/-- Claim C10: the status category a logged response stores is derived
solely from the success flag of the response data: 200 when success is
true, 500 otherwise; no field of the caller's data can set another value. -/
theorem log_api_response_status_from_success :
    ∀ (α : Type) (rid qid : String) (t : Int) (rd : ResponseData) (pt : Rat)
      (st : APIStorage α) (r : ResponseRecord),
      r ∈ (log_api_response false rid qid t rd pt st).1.responses →
      r ∉ st.responses →
      r.status_code = (if rd.success then 200 else 500) ∧
        r.success = rd.success := by
  intro α rid qid t rd pt st r hr hnew
  simp only [log_api_response, if_neg Bool.false_ne_true, List.mem_append,
    List.mem_singleton] at hr
  rcases hr with h | h
  · exact absurd h hnew
  · subst h
    exact ⟨rfl, rfl⟩

/-- Claim C10 witness: a concrete failed response is stored with status
category 500. -/
theorem log_api_response_status_from_success_witness :
    (mkResponseRecord "r1" "q1" 0 respDataF 1).status_code =
        (if respDataF.success then 200 else 500) ∧
      (mkResponseRecord "r1" "q1" 0 respDataF 1).success = respDataF.success :=
  log_api_response_status_from_success Unit "r1" "q1" 0 respDataF 1
    APIStorage.empty (mkResponseRecord "r1" "q1" 0 respDataF 1)
    (by decide) (by decide)

/-- Claim C3 counterexample: the creating upsertSession call initializes
total_requests to the schema default 0, so after a single call the one
session record's counter is 0, not 1 as the claim demands. -/
theorem upsert_session_first_call_counter_zero :
    ((create_or_update_session false "s1" 0 rdEx
        (APIStorage.empty (α := Unit))).1.sessions.map
      (fun s => (s.session_id, s.total_requests))) = [("s1", 0)] ∧
    ((create_or_update_session false "s1" 0 rdEx
        (APIStorage.empty (α := Unit))).1.sessions.map
      (fun s => s.total_requests)) ≠ [1] := by
  constructor
  · rfl
  · decide

/-- Claim C1 counterexample: with limit 3 on a fresh store, three calls in
the same 60-second window are not all admitted: the first two are, the
third is rejected with blocked=true, refuting the claim that each of the
first L = 3 calls is admitted. -/
theorem rate_limit_third_call_rejected :
    rateAdmitted 100 "1.2.3.4" "/chat" 3 (APIStorage.empty (α := Unit)) 0 = true ∧
    rateAdmitted 100 "1.2.3.4" "/chat" 3 (APIStorage.empty (α := Unit)) 1 = true ∧
    rateAdmitted 100 "1.2.3.4" "/chat" 3 (APIStorage.empty (α := Unit)) 2 = false ∧
    (rateInfoAt 100 "1.2.3.4" "/chat" 3 (APIStorage.empty (α := Unit)) 2).map
      (fun info => info.blocked) = some true := by
  refine ⟨?_, ?_, ?_, ?_⟩ <;> decide

lemma endSessionRow_idem (sid : String) (t1 t2 : Int) (s : SessionRecord) :
    endSessionRow sid t2 (endSessionRow sid t1 s) = endSessionRow sid t1 s := by
  by_cases h : (s.session_id == sid && s.is_active) = true
  · simp [endSessionRow, h]
  · simp [endSessionRow, h]

/-- Claim C9: end_session sets the inactive flag and end time only on a
still-active session row, and a second end_session call leaves the session
records exactly as the first left them. -/
theorem end_session_idempotent :
    ∀ (α : Type) (sid : String) (t1 t2 : Int) (st : APIStorage α),
      ((end_session false sid t2 (end_session false sid t1 st).1).1).sessions =
          ((end_session false sid t1 st).1).sessions ∧
        ∀ s : SessionRecord, s.is_active = false → endSessionRow sid t1 s = s := by
  intro α sid t1 t2 st
  constructor
  · show ((st.sessions.map (endSessionRow sid t1)).map (endSessionRow sid t2)) = _
    rw [List.map_map]
    exact List.map_congr_left (fun s _ => endSessionRow_idem sid t1 t2 s)
  · intro s hs
    simp [endSessionRow, hs]

/-- A sample store holding one active session, for concrete witnesses. -/
def stSessEx : APIStorage Unit :=
  { APIStorage.empty with
      sessions :=
        [{ session_id := "s1", created_at := 0, last_activity := 2
           total_requests := 3, successful_requests := 2, failed_requests := 1
           total_response_time := 5, ip_address := "1.2.3.4", user_agent := "ua"
           is_active := true, ended_at := none }] }

/-- A sample already-inactive session row, for concrete witnesses. -/
def sessInactiveEx : SessionRecord :=
  { session_id := "s1", created_at := 0, last_activity := 2
    total_requests := 3, successful_requests := 2, failed_requests := 1
    total_response_time := 5, ip_address := "1.2.3.4", user_agent := "ua"
    is_active := false, ended_at := some 7 }

/-- Claim C9 witness: on a concrete store, the second end_session call
leaves the session rows as the first left them, and the guarded row update
is the identity on a concrete inactive row. -/
theorem end_session_idempotent_witness :
    ((end_session false "s1" 9 (end_session false "s1" 7 stSessEx).1).1).sessions =
        ((end_session false "s1" 7 stSessEx).1).sessions ∧
      endSessionRow "s1" 7 sessInactiveEx = sessInactiveEx :=
  ⟨(end_session_idempotent Unit "s1" 7 9 stSessEx).1,
    (end_session_idempotent Unit "s1" 7 9 stSessEx).2 sessInactiveEx rfl⟩

lemma analyticsRollup_update (α : Type) (t : Int) (st : APIStorage α) :
    analyticsRollup t { st with analytics := analyticsRollup t st } =
      analyticsRollup t st := by
  simp only [analyticsRollup]
  rw [List.filter_append, List.filter_filter]
  simp

/-- Claim C8: update_analytics is idempotent: running the rollup twice for
the hour of the same timestamp, over fixed request/response records,
leaves the store exactly as one run does (the second run overwrites the
(date, hour) bucket with identical values). -/
theorem update_analytics_idempotent :
    ∀ (α : Type) (t : Int) (st : APIStorage α),
      update_analytics false t (update_analytics false t st) =
        update_analytics false t st := by
  intro α t st
  show ({ { st with analytics := analyticsRollup t st } with
      analytics := analyticsRollup t { st with analytics := analyticsRollup t st } } :
      APIStorage α) = { st with analytics := analyticsRollup t st }
  rw [analyticsRollup_update]

/-- Claim C7 (amended): the sweep keeps exactly the responses and requests
whose timestamp reached the cutoff, the rate-limit rows whose window end
reached the cutoff (the deletion criterion is the window end, not the
record's creation time), and the sessions that are active or new enough;
active sessions are never deleted. -/
theorem cleanup_old_data_characterization :
    ∀ (α : Type) (D : Nat) (now : Int) (st : APIStorage α),
      (∀ r : ResponseRecord,
        r ∈ ((cleanup_old_data false D now st).1).responses ↔
          r ∈ st.responses ∧ now - (D : Int) * 86400 ≤ r.timestamp) ∧
      (∀ q : RequestRecord,
        q ∈ ((cleanup_old_data false D now st).1).requests ↔
          q ∈ st.requests ∧ now - (D : Int) * 86400 ≤ q.timestamp) ∧
      (∀ w : RateLimitRow,
        w ∈ ((cleanup_old_data false D now st).1).rate_limits ↔
          w ∈ st.rate_limits ∧ now - (D : Int) * 86400 ≤ w.window_end) ∧
      (∀ s : SessionRecord,
        s ∈ ((cleanup_old_data false D now st).1).sessions ↔
          s ∈ st.sessions ∧
            (s.is_active = true ∨ now - (D : Int) * 86400 ≤ s.created_at)) ∧
      ((cleanup_old_data false D now st).1).sessions.filter
          (fun s => s.is_active) =
        st.sessions.filter (fun s => s.is_active) := by
  intro α D now st
  refine ⟨?_, ?_, ?_, ?_, ?_⟩
  · intro r
    simp [cleanup_old_data, List.mem_filter, not_lt]
  · intro q
    simp [cleanup_old_data, List.mem_filter, not_lt]
  · intro w
    simp [cleanup_old_data, List.mem_filter, not_lt]
  · intro s
    cases h : s.is_active <;>
      simp [cleanup_old_data, List.mem_filter, not_lt, h]
  · show ((st.sessions.filter _).filter (fun s => s.is_active)) = _
    rw [List.filter_filter]
    refine List.filter_congr (fun s _ => ?_)
    cases h : s.is_active <;> simp [h]

/-- A store holding one rate-limit window that is still open at time 1000. -/
def stOpenWindowEx : APIStorage Unit :=
  { APIStorage.empty with
      rate_limits :=
        [{ ip_address := "1.2.3.4", endpoint := "/chat", request_count := 1
           window_start := 990, window_end := 1050, is_blocked := false }] }

/-- Claim C7 counterexample: purge(0) at time 1000 does not empty the
store of everything but active sessions: a rate-limit row created at 990
(older than the cutoff 1000) survives because its window end 1050 has not
passed, so the store still holds one rate-limit record and no session. -/
theorem cleanup_keeps_open_rate_window :
    ((cleanup_old_data false 0 1000 stOpenWindowEx).1).rate_limits.length = 1 ∧
      ((cleanup_old_data false 0 1000 stOpenWindowEx).1).sessions = [] ∧
      (stOpenWindowEx.rate_limits.map (fun w => w.window_start)) = [990] := by
  refine ⟨rfl, rfl, rfl⟩

lemma find?_append_of_none {β : Type} (p : β → Bool) (l1 l2 : List β)
    (h : l1.find? p = none) : (l1 ++ l2).find? p = l2.find? p := by
  induction l1 with
  | nil => rfl
  | cons a l ih =>
    rw [List.find?_eq_none] at h
    have ha : p a = false := by
      have := h a (List.mem_cons_self a l)
      simpa using this
    have hl : l.find? p = none := by
      rw [List.find?_eq_none]
      intro x hx
      exact h x (List.mem_cons_of_mem a hx)
    simp [List.find?_cons, ha, ih hl]

lemma cache_find?_filter_ne {α : Type} (key : String) (l : List (CacheRecord α)) :
    (l.filter (fun c => c.cache_key != key)).find?
      (fun c => c.cache_key == key) = none := by
  rw [List.find?_eq_none]
  intro x hx
  rw [List.mem_filter] at hx
  simpa using hx.2

/-- Claim C6: after a successful cache put with ttl T minutes at time now,
a get strictly before the expiry instant now + 60 T returns the cached
payload and leaves the store untouched, and a get strictly after it
deletes the entry and returns absent. -/
theorem cache_ttl_roundtrip :
    ∀ (α : Type) (key : String) (p : α) (T : Nat) (now t : Int)
      (st : APIStorage α),
      (cache_response false key p T now st).2 = true ∧
      (t < now + (T : Int) * 60 →
        get_cached_response false key t (cache_response false key p T now st).1 =
          ((cache_response false key p T now st).1, some p)) ∧
      (now + (T : Int) * 60 < t →
        (get_cached_response false key t
            (cache_response false key p T now st).1).2 = none ∧
        ((get_cached_response false key t
            (cache_response false key p T now st).1).1).cache.find?
          (fun c => c.cache_key == key) = none) := by
  intro α key p T now t st
  have hput : (cache_response false key p T now st).1.cache =
      st.cache.filter (fun c => c.cache_key != key) ++
        [{ cache_key := key, response_data := p, created_at := now
           expires_at := now + (T : Int) * 60, ttl_minutes := T }] := rfl
  have hfind : ((cache_response false key p T now st).1.cache).find?
      (fun c => c.cache_key == key) =
      some { cache_key := key, response_data := p, created_at := now
             expires_at := now + (T : Int) * 60, ttl_minutes := T } := by
    rw [hput, find?_append_of_none _ _ _ (cache_find?_filter_ne key st.cache)]
    simp [List.find?_cons]
  refine ⟨rfl, ?_, ?_⟩
  · intro ht
    have hlt : ¬ ((now + (T : Int) * 60) < t) := by omega
    simp [get_cached_response, hfind, hlt]
  · intro ht
    constructor
    · simp [get_cached_response, hfind, ht]
    · simp only [get_cached_response, if_neg Bool.false_ne_true, hfind]
      rw [if_pos (by simpa using ht)]
      exact cache_find?_filter_ne key _

/-- Claim C6 witness: a concrete put of payload 42 with ttl one minute at
time 0 is readable at time 30 and absent at time 61. -/
theorem cache_ttl_roundtrip_witness :
    (cache_response false "k1" (42 : Nat) 1 0 APIStorage.empty).2 = true ∧
      get_cached_response false "k1" 30
          (cache_response false "k1" (42 : Nat) 1 0 APIStorage.empty).1 =
        ((cache_response false "k1" (42 : Nat) 1 0 APIStorage.empty).1, some 42) ∧
      (get_cached_response false "k1" 61
          (cache_response false "k1" (42 : Nat) 1 0 APIStorage.empty).1).2 = none :=
  ⟨(cache_ttl_roundtrip Nat "k1" 42 1 0 30 APIStorage.empty).1,
    (cache_ttl_roundtrip Nat "k1" 42 1 0 30 APIStorage.empty).2.1 (by decide),
    ((cache_ttl_roundtrip Nat "k1" 42 1 0 61 APIStorage.empty).2.2 (by decide)).1⟩

/-- The one session row held for `sid` after `k + 1` same-instant upsert
calls: the creating call leaves the counter at the schema default 0 and
each later call adds one. -/
def sessAfter (sid : String) (t : Int) (rd : RequestData) (k : Nat) :
    SessionRecord :=
  { session_id := sid, created_at := t, last_activity := t
    total_requests := k, successful_requests := 0, failed_requests := 0
    total_response_time := 0, ip_address := rd.ip_address
    user_agent := rd.user_agent, is_active := true, ended_at := none }

lemma upsertIter_sessions {α : Type} (sid : String) (t : Int)
    (rd : RequestData) (st : APIStorage α)
    (h : ∀ s ∈ st.sessions, s.session_id ≠ sid) :
    ∀ n, (upsertIter sid t rd st (n + 1)).sessions =
      st.sessions ++ [sessAfter sid t rd n] := by
  have hany : st.sessions.any (fun s => s.session_id == sid) = false := by
    rw [List.any_eq_false]
    intro s hs
    simpa using h s hs
  have hmap : ∀ (u : Int) (l : List SessionRecord),
      (∀ s ∈ l, s.session_id ≠ sid) →
      l.map (fun s =>
        if s.session_id == sid then
          { s with last_activity := u, total_requests := s.total_requests + 1 }
        else s) = l := by
    intro u l hl
    calc l.map _ = l.map id :=
          List.map_congr_left (fun s hs => by simp [hl s hs])
      _ = l := List.map_id l
  intro n
  induction n with
  | zero =>
    show (create_or_update_session false sid t rd st).1.sessions = _
    simp only [create_or_update_session, if_neg Bool.false_ne_true, hany]
    rfl
  | succ m ih =>
    show (create_or_update_session false sid t rd
      (upsertIter sid t rd st (m + 1))).1.sessions = _
    have hany2 : ((upsertIter sid t rd st (m + 1)).sessions).any
        (fun s => s.session_id == sid) = true := by
      rw [List.any_eq_true]
      refine ⟨sessAfter sid t rd m, ?_, by simp [sessAfter]⟩
      rw [ih]
      exact List.mem_append_right _ (List.mem_singleton.mpr rfl)
    simp only [create_or_update_session, if_neg Bool.false_ne_true, hany2,
      if_pos rfl, ih, List.map_append, hmap t st.sessions h]
    simp [sessAfter]

/-- Claim C3 (amended): after n >= 1 upsertSession calls with one id on a
store holding no session with that id, exactly one session record with
that id exists, and its total_requests counter is n - 1: the creating
call leaves the counter at 0 and each of the n - 1 later calls adds one. -/
theorem upsert_session_accumulates :
    ∀ (α : Type) (sid : String) (t : Int) (rd : RequestData)
      (st : APIStorage α) (n : Nat), 1 ≤ n →
      (∀ s ∈ st.sessions, s.session_id ≠ sid) →
      (((upsertIter sid t rd st n).sessions.filter
          (fun s => s.session_id == sid)).map
        (fun s => s.total_requests)) = [n - 1] := by
  intro α sid t rd st n hn h
  obtain ⟨m, rfl⟩ : ∃ m, n = m + 1 := ⟨n - 1, by omega⟩
  rw [upsertIter_sessions sid t rd st h m, List.filter_append]
  have h1 : st.sessions.filter (fun s => s.session_id == sid) = [] := by
    rw [List.filter_eq_nil_iff]
    intro s hs
    simpa using h s hs
  rw [h1]
  simp [sessAfter]

/-- Claim C3 witness: two upsert calls with id "s1" on the empty store
leave exactly one session record for "s1" with total_requests = 1. -/
theorem upsert_session_accumulates_witness :
    (((upsertIter "s1" 0 rdEx (APIStorage.empty (α := Unit)) 2).sessions.filter
        (fun s => s.session_id == "s1")).map
      (fun s => s.total_requests)) = [2 - 1] :=
  upsert_session_accumulates Unit "s1" 0 rdEx APIStorage.empty 2
    (by decide) (by simp [APIStorage.empty])

lemma mem_canonRows {now : Int} {ip ep : String} {k : Nat} (a : RateLimitRow)
    (ha : a ∈ canonRows now ip ep k) :
    a = canonRow now ip ep 1 ∨ a = canonRow now ip ep 2 := by
  cases k with
  | zero => simp [canonRows] at ha
  | succ m =>
    rcases List.mem_cons.mp ha with h | h
    · exact Or.inl h
    · exact Or.inr (List.eq_of_mem_replicate h)

lemma canonRows_filter_keep (now : Int) (ip ep : String) (k : Nat) :
    (canonRows now ip ep k).filter (rateKeep now) = canonRows now ip ep k := by
  apply List.filter_eq_self.mpr
  intro a ha
  rcases mem_canonRows a ha with h | h <;> subst h <;>
    · simp only [rateKeep, canonRow, Bool.not_eq_true', decide_eq_false_iff_not]
      omega

lemma canonRow_matching (now : Int) (ip ep : String) (c : Nat) :
    rateMatching now ip ep (canonRow now ip ep c) = true := by
  simp only [rateMatching, canonRow, Bool.and_eq_true, beq_self_eq_true,
    decide_eq_true_eq, true_and]
  omega

lemma canonRows_filter_matching (now : Int) (ip ep : String) (k : Nat) :
    (canonRows now ip ep k).filter (rateMatching now ip ep) =
      canonRows now ip ep k := by
  apply List.filter_eq_self.mpr
  intro a ha
  rcases mem_canonRows a ha with h | h <;> subst h <;>
    exact canonRow_matching now ip ep _

lemma canonRows_sum (now : Int) (ip ep : String) (k : Nat) :
    ((canonRows now ip ep k).map (fun r => r.request_count)).sum = 2 * k - 1 := by
  cases k with
  | zero => rfl
  | succ m =>
    simp only [canonRows, List.map_cons, List.map_replicate, List.sum_cons,
      List.sum_replicate, smul_eq_mul, canonRow]
    omega

lemma canonRows_find? (now : Int) (ip ep : String) (k : Nat) :
    (canonRows now ip ep (k + 1)).find? (rateMatching now ip ep) =
      some (canonRow now ip ep 1) := by
  simp only [canonRows]
  rw [List.find?_cons_of_pos _ (canonRow_matching now ip ep 1)]

lemma canonRows_snoc (now : Int) (ip ep : String) (k : Nat) :
    canonRows now ip ep (k + 1) =
      canonRows now ip ep k ++
        [canonRow now ip ep (if k = 0 then 1 else 2)] := by
  cases k with
  | zero => rfl
  | succ m =>
    simp only [canonRows, if_neg (Nat.succ_ne_zero m)]
    rw [List.replicate_succ']
    rfl

lemma check_rate_limit_canon_step {α : Type} (now : Int) (ip ep : String)
    (L k : Nat) (st : APIStorage α)
    (hrl : st.rate_limits = canonRows now ip ep k) :
    (check_rate_limit false now ip ep L st).2.1 = decide (2 * k - 1 < L) ∧
    (2 * k - 1 < L →
      ((check_rate_limit false now ip ep L st).1).rate_limits =
        canonRows now ip ep (k + 1)) ∧
    (¬ (2 * k - 1 < L) →
      (check_rate_limit false now ip ep L st).2.2 =
        some { current_requests := 2 * k - 1, limit := L
               reset_time := now + 60, blocked := true }) := by
  simp only [check_rate_limit, if_neg Bool.false_ne_true, hrl,
    canonRows_filter_keep, canonRows_filter_matching, canonRows_sum]
  by_cases h : 2 * k - 1 < L
  · rw [if_pos h]
    refine ⟨by simp [h], fun _ => ?_, fun hc => absurd h hc⟩
    cases k with
    | zero => rfl
    | succ m =>
      rw [canonRows_find?]
      rw [canonRows_snoc now ip ep (m + 1)]
      simp [Nat.succ_ne_zero, canonRow]
  · rw [if_neg h]
    exact ⟨by simp [h], fun hc => absurd hc h, fun _ => rfl⟩

lemma rateIter_canon {α : Type} (now : Int) (ip ep : String) (L : Nat)
    (st : APIStorage α) (h0 : st.rate_limits = []) :
    ∀ k, (∀ i, i < k → 2 * i - 1 < L) →
      ((rateIter now ip ep L st k).rate_limits = canonRows now ip ep k) := by
  intro k
  induction k with
  | zero => intro _; exact h0
  | succ m ih =>
    intro h
    have hm := ih (fun i hi => h i (Nat.lt_succ_of_lt hi))
    show ((check_rate_limit false now ip ep L
      (rateIter now ip ep L st m)).1).rate_limits = _
    exact (check_rate_limit_canon_step now ip ep L m _ hm).2.1
      (h m (Nat.lt_succ_self m))

/-- Claim C1 (amended): with limit L >= 1 and same-instant calls on a
store with no rate-limit windows, the calls admitted in the 60-second
window are exactly the first L/2 + 1 (integer division): each call i with
0 <= i <= L/2 is admitted, and call L/2 + 1 is rejected with blocked=true
in its info.  The stored counts over-count because every admitted call
inserts a fresh row whose count copies the first row's count plus one and
the admission test sums all rows of the pair. -/
theorem rate_limit_fixed_window_admission :
    ∀ (α : Type) (now : Int) (ip ep : String) (L : Nat) (st : APIStorage α),
      1 ≤ L → st.rate_limits = [] →
      (∀ i, i ≤ L / 2 → rateAdmitted now ip ep L st i = true) ∧
      rateAdmitted now ip ep L st (L / 2 + 1) = false ∧
      (rateInfoAt now ip ep L st (L / 2 + 1)).map (fun info => info.blocked) =
        some true := by
  intro α now ip ep L st hL h0
  have hsmall : ∀ i, i ≤ L / 2 → 2 * i - 1 < L := by
    intro i hi
    omega
  have hbig : ¬ (2 * (L / 2 + 1) - 1 < L) := by
    omega
  have hstate : ∀ k, k ≤ L / 2 + 1 →
      (rateIter now ip ep L st k).rate_limits = canonRows now ip ep k := by
    intro k hk
    exact rateIter_canon now ip ep L st h0 k
      (fun i hi => hsmall i (by omega))
  refine ⟨?_, ?_, ?_⟩
  · intro i hi
    have := (check_rate_limit_canon_step now ip ep L i _
      (hstate i (by omega))).1
    rw [rateAdmitted, this]
    simp [hsmall i hi]
  · have := (check_rate_limit_canon_step now ip ep L (L / 2 + 1) _
      (hstate (L / 2 + 1) (by omega))).1
    rw [rateAdmitted, this]
    simp [hbig]
  · have := (check_rate_limit_canon_step now ip ep L (L / 2 + 1) _
      (hstate (L / 2 + 1) (by omega))).2.2 hbig
    rw [rateInfoAt, this]
    rfl

/-- Claim C1 witness: with limit 3 on the empty store, calls 0 and 1 are
admitted, and call 3/2 + 1 = 2 (the third call) is rejected with
blocked=true. -/
theorem rate_limit_fixed_window_admission_witness :
    1 ≤ 3 ∧
      rateAdmitted 500 "9.9.9.9" "/x" 3 (APIStorage.empty (α := Unit)) 1 = true ∧
      rateAdmitted 500 "9.9.9.9" "/x" 3 (APIStorage.empty (α := Unit))
        (3 / 2 + 1) = false ∧
      (rateInfoAt 500 "9.9.9.9" "/x" 3 (APIStorage.empty (α := Unit))
        (3 / 2 + 1)).map (fun info => info.blocked) = some true :=
  ⟨by decide,
    (rate_limit_fixed_window_admission Unit 500 "9.9.9.9" "/x" 3
      APIStorage.empty (by decide) rfl).1 1 (by decide),
    (rate_limit_fixed_window_admission Unit 500 "9.9.9.9" "/x" 3
      APIStorage.empty (by decide) rfl).2.1,
    (rate_limit_fixed_window_admission Unit 500 "9.9.9.9" "/x" 3
      APIStorage.empty (by decide) rfl).2.2⟩
